import Mathlib

/-!
# Verification of the jpeg-to-pdf library

A shallow embedding of the `jpeg-to-pdf` Rust crate: `src/ori.rs` (the EXIF
orientation-to-geometry table), `src/lib.rs` (the `JpegToPdf` builder, the
per-image `add_page` pipeline and `create_pdf`), `src/errors.rs` (the error
type and its `Display` rendering) and the empty-input guard of
`src/bin/cli.rs`.

Modelling conventions:
* Byte buffers (`Vec<u8>`) are `List Nat`.
* `f64` quantities (DPI, point dimensions, rotation angles, mirror factors)
  are modelled as exact rationals; every `f64` value the library computes
  with (72.0, 300.0, 90/180/270 degrees, -1.0) is exactly representable.
* The external collaborator crates (`jpeg_decoder`, `img_parts`, `exif`,
  `printpdf`) are out of scope for the repository and are modelled at their
  boundary as an abstract record of functions (`Collab`), exactly the
  operations `lib.rs` invokes on them.  `OffsetDateTime` is an abstract
  instant, modelled as `Nat`.
* `printpdf`'s `Px::into_pt` is `px * 72 / dpi`; the subsequent `Pt -> Mm`
  unit conversion is an exact linear bijection, so pages record their
  dimensions in points.
* `doc.save(out)` is modelled as an atomic collaborator call producing the
  serialized bytes or an error; the sink receives bytes only from a
  successful save.
-/

namespace JpegToPdfModel

/-- Raw byte buffers (Rust `Vec<u8>`). -/
abbrev Bytes := List Nat

/-- `jpeg_decoder::PixelFormat`, restricted to the variants `lib.rs` matches on. -/
inductive PixelFormat
  | L8
  | RGB24
  | CMYK32
deriving DecidableEq

/-- The image metadata produced by `jpeg_decoder`'s `decoder.info()`. -/
structure ImageInfo where
  width : Nat
  height : Nat
  pixel_format : PixelFormat
deriving DecidableEq

/-- `printpdf::ColorSpace`, restricted to the variants `lib.rs` produces. -/
inductive ColorSpace
  | Greyscale
  | Rgb
  | Cmyk
deriving DecidableEq

/-- `printpdf::ImageFilter`; `lib.rs` always uses the JPEG-native `DCT` filter. -/
inductive ImageFilter
  | DCT
deriving DecidableEq

/-- `src/ori.rs`: the `Orientation` value object.  `value` is the raw `u32`
EXIF orientation code, `width` and `height` the raw pixel dimensions. -/
structure Orientation where
  value : Nat
  width : Nat
  height : Nat
deriving DecidableEq

/-- `ori.rs` `display_width`: `match self.value { 5..=8 => self.height, _ => self.width }`. -/
def Orientation.display_width (o : Orientation) : Nat :=
  if 5 ≤ o.value ∧ o.value ≤ 8 then o.height else o.width

/-- `ori.rs` `display_height`: `match self.value { 5..=8 => self.width, _ => self.height }`. -/
def Orientation.display_height (o : Orientation) : Nat :=
  if 5 ≤ o.value ∧ o.value ≤ 8 then o.width else o.height

/-- `ori.rs` `translate_x`: `match self.value { 2 | 3 => Some(width), 5 | 8 => Some(height), _ => None }`. -/
def Orientation.translate_x (o : Orientation) : Option Nat :=
  if o.value = 2 ∨ o.value = 3 then some o.width
  else if o.value = 5 ∨ o.value = 8 then some o.height
  else none

/-- `ori.rs` `translate_y`: `match self.value { 3 | 4 => Some(height), 5 | 6 => Some(width), _ => None }`. -/
def Orientation.translate_y (o : Orientation) : Option Nat :=
  if o.value = 3 ∨ o.value = 4 then some o.height
  else if o.value = 5 ∨ o.value = 6 then some o.width
  else none

/-- `ori.rs` `rotate_cw`: `match self.value { 3 | 4 => Some(180.0), 5 | 8 => Some(90.0), 6 | 7 => Some(270.0), _ => None }`. -/
def Orientation.rotate_cw (o : Orientation) : Option ℚ :=
  if o.value = 3 ∨ o.value = 4 then some 180
  else if o.value = 5 ∨ o.value = 8 then some 90
  else if o.value = 6 ∨ o.value = 7 then some 270
  else none

/-- `ori.rs` `scale_x`: `match self.value { 2 | 4 | 5 | 7 => Some(-1.0), _ => None }`. -/
def Orientation.scale_x (o : Orientation) : Option ℚ :=
  if o.value = 2 ∨ o.value = 4 ∨ o.value = 5 ∨ o.value = 7 then some (-1) else none

/-- One row of the geometry table: the six derived quantities of an
`Orientation`, bundled (as in the crate's own `OrientationData` test struct). -/
structure GeometryRow where
  display_width : Nat
  display_height : Nat
  translate_x : Option Nat
  translate_y : Option Nat
  rotate_cw : Option ℚ
  scale_x : Option ℚ
deriving DecidableEq

/-- The complete geometry derived from an orientation code and raw pixel
dimensions, i.e. all six `Orientation` methods evaluated at `⟨code, w, h⟩`. -/
def geometry (code w h : Nat) : GeometryRow :=
  let o : Orientation := ⟨code, w, h⟩
  ⟨o.display_width, o.display_height, o.translate_x, o.translate_y, o.rotate_cw, o.scale_x⟩

/-- `src/errors.rs` `Cause`: things that might go wrong while creating a PDF
from JPEGs.  The wrapped collaborator errors are modelled by their rendered
message strings. -/
inductive Cause
  | imageInfo (e : String)
  | unexpectedImageInfo
  | imageSections (e : String)
  | pdfWrite (e : String)
deriving DecidableEq

/-- `src/errors.rs` `Error`: the failing image's zero-based index plus cause. -/
structure Error where
  index : Nat
  cause : Cause
deriving DecidableEq

/-- `errors.rs` `impl Display for Cause`. -/
def Cause.display : Cause → String
  | Cause.imageInfo e => "failed to read image info: " ++ e
  | Cause.unexpectedImageInfo => "unexpectedly failed to read image info"
  | Cause.imageSections e => "failed to read image sections: " ++ e
  | Cause.pdfWrite e => "failed to write PDF: " ++ e

/-- `errors.rs` `impl Display for Error`: a `PdfWrite` cause is rendered
bare; every other cause is rendered with the failing image's index. -/
def Error.display (err : Error) : String :=
  match err.cause with
  | Cause.pdfWrite _ => err.cause.display
  | _ => "error with JPEG index " ++ Nat.repr err.index ++ ": " ++ err.cause.display

/-- `printpdf` `Px::into_pt`: `Pt(px as f64 * 72.0 / dpi)`. -/
def pxToPt (px : Nat) (dpi : ℚ) : ℚ := (px : ℚ) * 72 / dpi

/-- The `printpdf` `ImageXObject` built by `add_page` together with the
placement arguments `add_page` passes to `add_to_layer` (translation in
points, rotation angle, horizontal mirror factor, target dpi). -/
structure PlacedImage where
  width : Nat
  height : Nat
  color_space : ColorSpace
  bits_per_component : Nat
  interpolate : Bool
  image_data : Bytes
  image_filter : ImageFilter
  translate_x : Option ℚ
  translate_y : Option ℚ
  rotate_cw : Option ℚ
  scale_x : Option ℚ
  dpi : ℚ
deriving DecidableEq

/-- One PDF page as composed by `add_page`: page dimensions in points and
the single placed image. -/
structure Page where
  width : ℚ
  height : ℚ
  image : PlacedImage
deriving DecidableEq

/-- The `printpdf` document under construction: title, timestamps and the
pages added so far, in order. -/
structure PdfDocument where
  title : String
  creation_date : Nat
  mod_date : Nat
  pages : List Page
deriving DecidableEq

/-- The external collaborator crates, modelled at the boundary: exactly the
operations `lib.rs` invokes.  `Cont` is `img_parts::jpeg::Jpeg`, `Exr` is
`exif`'s parsed EXIF data, `Fld` is an EXIF field.
* `decode b = .ok o` models `JpegDecoder::read_info` succeeding with
  `decoder.info() = o`; `.error e` models `read_info` failing.
* `jpegFromBytes` is `Jpeg::from_bytes`; `containerExif` is `image.exif()`;
  `setExifNone` is `image.set_exif(None)`; `serializeContainer` is
  `image.encoder().write_to(..)` (infallible when writing to a `Vec`).
* `exifReadRaw` is `ExifReader::new().read_raw(..).ok()`;
  `getOrientationField` is `exif.get_field(Tag::Orientation, In::PRIMARY)`;
  `fieldGetUint` is `field.value.get_uint(0)`.
* `pdfSave` is `doc.save(out)`, modelled atomically: it yields the bytes
  the sink receives, or an error (in which case nothing counts as written). -/
structure Collab (Cont Exr Fld : Type) where
  decode : Bytes → Except String (Option ImageInfo)
  jpegFromBytes : Bytes → Except String Cont
  containerExif : Cont → Option Bytes
  setExifNone : Cont → Cont
  serializeContainer : Cont → Bytes
  exifReadRaw : Bytes → Option Exr
  getOrientationField : Exr → Option Fld
  fieldGetUint : Fld → Option Nat
  pdfSave : PdfDocument → Except String Bytes

variable {Cont Exr Fld : Type}

/-- The color-space mapping in `add_page`: `L8 => Greyscale, RGB24 => Rgb, CMYK32 => Cmyk`. -/
def colorSpaceOf : PixelFormat → ColorSpace
  | PixelFormat.L8 => ColorSpace.Greyscale
  | PixelFormat.RGB24 => ColorSpace.Rgb
  | PixelFormat.CMYK32 => ColorSpace.Cmyk

/-- The orientation-resolution chain in `add_page`:
`image.exif().and_then(read_raw.ok).and_then(get_field(Orientation).and_then(get_uint(0))).unwrap_or(1)`. -/
def resolve_orientation (C : Collab Cont Exr Fld) (img : Cont) : Nat :=
  (((C.containerExif img).bind fun d => C.exifReadRaw d).bind fun ex =>
      (C.getOrientationField ex).bind fun f => C.fieldGetUint f).getD 1

/-- `lib.rs` `add_page`, as the pure page it appends to the document:
decode the header, parse the container, resolve the orientation, optionally
strip EXIF, re-serialize, size the page from the oriented display
dimensions, and place the image with the orientation's transform. -/
def add_page (C : Collab Cont Exr Fld) (image : Bytes) (dpi : ℚ)
    (strip_exif : Bool) : Except Cause Page :=
  match C.decode image with
  | Except.error e => Except.error (Cause.imageInfo e)
  | Except.ok none => Except.error Cause.unexpectedImageInfo
  | Except.ok (some info) =>
    match C.jpegFromBytes image with
    | Except.error e => Except.error (Cause.imageSections e)
    | Except.ok img =>
      let ori : Orientation := ⟨resolve_orientation C img, info.width, info.height⟩
      let img2 := if strip_exif then C.setExifNone img else img
      let image_data := C.serializeContainer img2
      Except.ok
        { width := pxToPt ori.display_width dpi
          height := pxToPt ori.display_height dpi
          image :=
            { width := info.width
              height := info.height
              color_space := colorSpaceOf info.pixel_format
              bits_per_component := 8
              interpolate := false
              image_data := image_data
              image_filter := ImageFilter.DCT
              translate_x := Option.map (fun px => pxToPt px dpi) ori.translate_x
              translate_y := Option.map (fun px => pxToPt px dpi) ori.translate_y
              rotate_cw := ori.rotate_cw
              scale_x := ori.scale_x
              dpi := dpi } }

/-- `lib.rs` `JpegToPdf`: the builder's configuration record. -/
structure JpegToPdf where
  images : List Bytes
  dpi : ℚ
  strip_exif : Bool
  document_title : String
  creation_date : Nat
  mod_date : Nat

/-- `JpegToPdf::new()`.  Rust initializes `creation_date` and `mod_date`
with two separate `OffsetDateTime::now_utc()` calls, modelled as the two
instants `now_c` and `now_m`. -/
def JpegToPdf.new (now_c now_m : Nat) : JpegToPdf :=
  ⟨[], 300, false, "", now_c, now_m⟩

/-- `JpegToPdf::add_image`. -/
def JpegToPdf.add_image (self : JpegToPdf) (image : Bytes) : JpegToPdf :=
  { self with images := self.images ++ [image] }

/-- `JpegToPdf::add_images`. -/
def JpegToPdf.add_images (self : JpegToPdf) (images : List Bytes) : JpegToPdf :=
  { self with images := self.images ++ images }

/-- `JpegToPdf::set_dpi`. -/
def JpegToPdf.set_dpi (self : JpegToPdf) (dpi : ℚ) : JpegToPdf :=
  { self with dpi := dpi }

/-- `JpegToPdf::strip_exif` (the setter; named apart from the field here). -/
def JpegToPdf.set_strip_exif (self : JpegToPdf) (strip_exif : Bool) : JpegToPdf :=
  { self with strip_exif := strip_exif }

/-- `JpegToPdf::set_document_title`. -/
def JpegToPdf.set_document_title (self : JpegToPdf) (document_title : String) : JpegToPdf :=
  { self with document_title := document_title }

/-- `JpegToPdf::set_creation_date`. -/
def JpegToPdf.set_creation_date (self : JpegToPdf) (creation_date : Nat) : JpegToPdf :=
  { self with creation_date := creation_date }

/-- `JpegToPdf::set_mod_date`. -/
def JpegToPdf.set_mod_date (self : JpegToPdf) (mod_date : Nat) : JpegToPdf :=
  { self with mod_date := mod_date }

/-- The enumerated `try_for_each` loop of `create_pdf`: add a page per image
in order, wrapping the first failing image's cause with its index. -/
def addPages (C : Collab Cont Exr Fld) (dpi : ℚ) (strip_exif : Bool) :
    List Bytes → Nat → Except Error (List Page)
  | [], _ => Except.ok []
  | image :: rest, index =>
    match add_page C image dpi strip_exif with
    | Except.error cause => Except.error ⟨index, cause⟩
    | Except.ok page =>
      match addPages C dpi strip_exif rest (index + 1) with
      | Except.error e => Except.error e
      | Except.ok pages => Except.ok (page :: pages)

/-- The document `create_pdf` hands to `doc.save`: `PdfDocument::empty`
with the configured title and timestamps, plus the pages added by the loop. -/
def buildDoc (C : Collab Cont Exr Fld) (self : JpegToPdf) : Except Error PdfDocument :=
  match addPages C self.dpi self.strip_exif self.images 0 with
  | Except.error e => Except.error e
  | Except.ok pages =>
    Except.ok ⟨self.document_title, self.creation_date, self.mod_date, pages⟩

/-- `JpegToPdf::create_pdf`: run the per-image loop, then `doc.save`; a
save failure is wrapped as `PdfWrite` with index 0.  `.ok bytes` is the
byte stream the sink receives; on error nothing is written. -/
def JpegToPdf.create_pdf (C : Collab Cont Exr Fld) (self : JpegToPdf) :
    Except Error Bytes :=
  match buildDoc C self with
  | Except.error e => Except.error e
  | Except.ok doc =>
    match C.pdfSave doc with
    | Except.error e => Except.error ⟨0, Cause.pdfWrite e⟩
    | Except.ok bytes => Except.ok bytes

/-- The bytes the caller's sink receives from a `create_pdf` run: only a
successful save emits output. -/
def writtenBytes : Except Error Bytes → Bytes
  | Except.error _ => []
  | Except.ok bs => bs

/-- `lib.rs` `create_pdf_from_jpegs` (deprecated entry point):
`JpegToPdf::new().add_images(jpegs).set_dpi(dpi.unwrap_or(300.0)).create_pdf(out)`. -/
def create_pdf_from_jpegs (C : Collab Cont Exr Fld) (jpegs : List Bytes)
    (dpi : Option ℚ) (now_c now_m : Nat) : Except Error Bytes :=
  JpegToPdf.create_pdf C (((JpegToPdf.new now_c now_m).add_images jpegs).set_dpi (dpi.getD 300))

/-- `src/bin/cli.rs` `main`: the guard `opt.images.is_empty()` that makes
the CLI refuse an empty input list before the library is ever invoked. -/
def cliRejectsEmptyInput (images : List Bytes) : Bool := images.isEmpty

/-- Does the pattern (second argument) occur at the head of the list? -/
def leadMatch : List Char → List Char → Bool
  | _, [] => true
  | [], _ :: _ => false
  | a :: as, b :: bs => a == b && leadMatch as bs

/-- Does `sub` occur as a contiguous run anywhere in the list? -/
def occursAnywhere (sub : List Char) : List Char → Bool
  | [] => leadMatch [] sub
  | a :: as => leadMatch (a :: as) sub || occursAnywhere sub as

/-- `mentions msg sub`: the string `sub` occurs verbatim inside `msg`.
Formalizes "the message names X" as the decimal rendering (or text) of X
occurring in the message. -/
def mentions (msg sub : String) : Bool := occursAnywhere sub.data msg.data

theorem leadMatch_append (s t : List Char) : leadMatch (s ++ t) s = true := by
  induction s with
  | nil => cases t <;> rfl
  | cons a as ih => simp [leadMatch, ih]

theorem occursAnywhere_append (a s b : List Char) :
    occursAnywhere s (a ++ (s ++ b)) = true := by
  induction a with
  | nil =>
    cases hsb : s ++ b with
    | nil =>
      rcases List.append_eq_nil.mp hsb with ⟨hs, hb⟩
      subst hs hb
      rfl
    | cons x xs =>
      simp only [List.nil_append, occursAnywhere]
      rw [← hsb, leadMatch_append, Bool.true_or]
  | cons c cs ih => simp [occursAnywhere, ih]

theorem mentions_mid (a s b : String) : mentions (a ++ s ++ b) s = true := by
  have : (a ++ s ++ b).data = a.data ++ (s.data ++ b.data) := by
    simp [String.data_append, List.append_assoc]
  simp [mentions, this, occursAnywhere_append]

theorem mentions_left (a s : String) : mentions (a ++ s) s = true := by
  have h := mentions_mid a s ""
  simpa using h

/-- A concrete collaborator assembly used to evaluate the pipeline on
closed inputs: a container is its optional EXIF segment paired with the
remaining bytes; serialization returns the remaining bytes, so a freshly
parsed container round-trips to the original buffer; EXIF data is raw
bytes, a field is its value; the decoder rejects the empty buffer and
reports a 4x3 RGB image otherwise; saving yields the page count. -/
def W : Collab (Option Bytes × Bytes) Bytes Nat where
  decode := fun b =>
    if b = [] then Except.error "empty"
    else Except.ok (some ⟨4, 3, PixelFormat.RGB24⟩)
  jpegFromBytes := fun b => Except.ok (none, b)
  containerExif := fun c => c.1
  setExifNone := fun c => (none, c.2)
  serializeContainer := fun c => c.2
  exifReadRaw := fun d => some d
  getOrientationField := fun ex => ex.head?
  fieldGetUint := fun f => some f
  pdfSave := fun d => Except.ok [d.pages.length]

/-- `W` with a failing document writer. -/
def W2 : Collab (Option Bytes × Bytes) Bytes Nat :=
  { W with pdfSave := fun _ => Except.error "disk full" }

/-- A one-image configuration at the default settings. -/
def cfg2 : JpegToPdf := ⟨[[1]], 300, false, "", 0, 0⟩

theorem addPages_fail (C : Collab Cont Exr Fld) (dpi : ℚ) (strip : Bool)
    (img : Bytes) (post : List Bytes) (c : Cause)
    (hfail : add_page C img dpi strip = Except.error c) :
    ∀ pre : List Bytes,
      (∀ b, b ∈ pre → ∃ p, add_page C b dpi strip = Except.ok p) →
      ∀ idx, addPages C dpi strip (pre ++ img :: post) idx
        = Except.error ⟨idx + pre.length, c⟩ := by
  intro pre
  induction pre with
  | nil =>
    intro _ idx
    simp [addPages, hfail]
  | cons b rest ih =>
    intro hpre idx
    obtain ⟨p, hp⟩ := hpre b (List.mem_cons_self b rest)
    have h2 := ih (fun x hx => hpre x (List.mem_cons_of_mem b hx)) (idx + 1)
    simp only [List.cons_append, addPages, hp, List.append_eq, h2, Except.error.injEq,
      Error.mk.injEq, List.length_cons, and_true]
    omega

theorem addPages_ok (C : Collab Cont Exr Fld) (dpi : ℚ) (strip : Bool) :
    ∀ (imgs : List Bytes) (idx : Nat) (pages : List Page),
      addPages C dpi strip imgs idx = Except.ok pages →
      pages.length = imgs.length ∧
      ∀ i img, imgs.get? i = some img →
        ∃ p, pages.get? i = some p ∧ add_page C img dpi strip = Except.ok p := by
  intro imgs
  induction imgs with
  | nil =>
    intro idx pages h
    simp only [addPages] at h
    cases h
    simp
  | cons b rest ih =>
    intro idx pages h
    simp only [addPages] at h
    cases hb : add_page C b dpi strip with
    | error c => rw [hb] at h; cases h
    | ok p =>
      rw [hb] at h
      cases hr : addPages C dpi strip rest (idx + 1) with
      | error e => rw [hr] at h; cases h
      | ok ps =>
        rw [hr] at h
        cases h
        obtain ⟨hl, hspec⟩ := ih (idx + 1) ps hr
        refine ⟨by simp [hl], ?_⟩
        intro i img hi
        cases i with
        | zero =>
          cases hi
          exact ⟨p, rfl, hb⟩
        | succ n => exact hspec n img hi

theorem add_page_ok_inv (C : Collab Cont Exr Fld) (image : Bytes) (dpi : ℚ)
    (strip : Bool) (p : Page) (h : add_page C image dpi strip = Except.ok p) :
    ∃ info cont, C.decode image = Except.ok (some info) ∧
      C.jpegFromBytes image = Except.ok cont ∧
      p.width = pxToPt (Orientation.display_width
        ⟨resolve_orientation C cont, info.width, info.height⟩) dpi ∧
      p.height = pxToPt (Orientation.display_height
        ⟨resolve_orientation C cont, info.width, info.height⟩) dpi := by
  unfold add_page at h
  cases hd : C.decode image with
  | error e => rw [hd] at h; cases h
  | ok o =>
    rw [hd] at h
    cases o with
    | none => cases h
    | some info =>
      cases hj : C.jpegFromBytes image with
      | error e => rw [hj] at h; cases h
      | ok cont =>
        rw [hj] at h
        cases h
        exact ⟨info, cont, rfl, rfl, rfl, rfl⟩

/-- C1: for every orientation code and positive pixel dimensions, the six
geometry functions on `Orientation` return exactly the row of the §4.2
table for that code — codes 1-4 keep the display dimensions and 5-8 swap
them, translate/rotate/mirror as tabulated, and every code outside 1-8
yields the identity row. -/
theorem c1_geometry_table (code w h : Nat) (hw : 0 < w) (hh : 0 < h) :
    (code = 1 → geometry code w h = ⟨w, h, none, none, none, none⟩)
  ∧ (code = 2 → geometry code w h = ⟨w, h, some w, none, none, some (-1)⟩)
  ∧ (code = 3 → geometry code w h = ⟨w, h, some w, some h, some 180, none⟩)
  ∧ (code = 4 → geometry code w h = ⟨w, h, none, some h, some 180, some (-1)⟩)
  ∧ (code = 5 → geometry code w h = ⟨h, w, some h, some w, some 90, some (-1)⟩)
  ∧ (code = 6 → geometry code w h = ⟨h, w, none, some w, some 270, none⟩)
  ∧ (code = 7 → geometry code w h = ⟨h, w, none, none, some 270, some (-1)⟩)
  ∧ (code = 8 → geometry code w h = ⟨h, w, some h, none, some 90, none⟩)
  ∧ (¬(1 ≤ code ∧ code ≤ 8) → geometry code w h = ⟨w, h, none, none, none, none⟩) := by
  refine ⟨?_, ?_, ?_, ?_, ?_, ?_, ?_, ?_, ?_⟩
  · rintro rfl; rfl
  · rintro rfl; rfl
  · rintro rfl; rfl
  · rintro rfl; rfl
  · rintro rfl; rfl
  · rintro rfl; rfl
  · rintro rfl; rfl
  · rintro rfl; rfl
  · intro hc
    have h58 : ¬(5 ≤ code ∧ code ≤ 8) := by omega
    have h23 : ¬(code = 2 ∨ code = 3) := by omega
    have h58e : ¬(code = 5 ∨ code = 8) := by omega
    have h34 : ¬(code = 3 ∨ code = 4) := by omega
    have h56 : ¬(code = 5 ∨ code = 6) := by omega
    have h67 : ¬(code = 6 ∨ code = 7) := by omega
    have h2457 : ¬(code = 2 ∨ code = 4 ∨ code = 5 ∨ code = 7) := by omega
    simp [geometry, Orientation.display_width, Orientation.display_height,
      Orientation.translate_x, Orientation.translate_y, Orientation.rotate_cw,
      Orientation.scale_x, h58, h23, h58e, h34, h56, h67, h2457]

/-- C1 witness: the spec's worked example, code 6 at 4032x3024. -/
theorem c1_witness :
    (0 : Nat) < 4032 ∧ (0 : Nat) < 3024 ∧
      geometry 6 4032 3024 = ⟨3024, 4032, none, some 4032, some 270, none⟩ :=
  ⟨by decide, by decide,
    (c1_geometry_table 6 4032 3024 (by decide) (by decide)).2.2.2.2.2.1 rfl⟩

/-- C3: with `strip_exif = false`, whenever the header decoder and the
container parser accept the input and re-serializing the freshly parsed
container reproduces the input bytes, the payload embedded in the page is
byte-for-byte the original input buffer. -/
theorem c3_payload_identity (C : Collab Cont Exr Fld) (image : Bytes)
    (info : ImageInfo) (cont : Cont) (dpi : ℚ)
    (hdec : C.decode image = Except.ok (some info))
    (hparse : C.jpegFromBytes image = Except.ok cont)
    (hround : C.serializeContainer cont = image) :
    Except.map (fun p => p.image.image_data) (add_page C image dpi false)
      = Except.ok image := by
  simp [add_page, hdec, hparse, hround, Except.map]

/-- C3 witness. -/
theorem c3_witness :
    Except.map (fun p => p.image.image_data) (add_page W [1] 300 false)
      = Except.ok [1] :=
  c3_payload_identity W [1] ⟨4, 3, PixelFormat.RGB24⟩ (none, [1]) 300 rfl rfl rfl

/-- C5: orientation resolution never fails — if the EXIF segment is absent,
or it does not parse, or the orientation tag is absent, or the tag's value
is not an unsigned integer, the resolved code is 1; otherwise it is the
tag's unsigned-integer value, returned without range validation. -/
theorem c5_orientation_fallback (C : Collab Cont Exr Fld) (img : Cont) :
    (C.containerExif img = none → resolve_orientation C img = 1)
  ∧ (∀ d, C.containerExif img = some d → C.exifReadRaw d = none →
      resolve_orientation C img = 1)
  ∧ (∀ d ex, C.containerExif img = some d → C.exifReadRaw d = some ex →
      C.getOrientationField ex = none → resolve_orientation C img = 1)
  ∧ (∀ d ex f, C.containerExif img = some d → C.exifReadRaw d = some ex →
      C.getOrientationField ex = some f → C.fieldGetUint f = none →
      resolve_orientation C img = 1)
  ∧ (∀ d ex f v, C.containerExif img = some d → C.exifReadRaw d = some ex →
      C.getOrientationField ex = some f → C.fieldGetUint f = some v →
      resolve_orientation C img = v) := by
  refine ⟨?_, ?_, ?_, ?_, ?_⟩
  · intro h1; simp [resolve_orientation, h1]
  · intro d h1 h2; simp [resolve_orientation, h1, h2]
  · intro d ex h1 h2 h3; simp [resolve_orientation, h1, h2, h3]
  · intro d ex f h1 h2 h3 h4; simp [resolve_orientation, h1, h2, h3, h4]
  · intro d ex f v h1 h2 h3 h4; simp [resolve_orientation, h1, h2, h3, h4]

/-- C5 witness: a present, parseable tag with the out-of-range value 9 is
returned unvalidated. -/
theorem c5_witness : resolve_orientation W (some [9], []) = 9 :=
  (c5_orientation_fallback W (some [9], [])).2.2.2.2 [9] [9] 9 9 rfl rfl rfl rfl

/-- C9: under a conforming decoder (`read_info` success implies `info()` is
`Some`), `add_page` never returns the defensive `UnexpectedImageInfo`
error. -/
theorem c9_unexpected_unreachable (C : Collab Cont Exr Fld)
    (hconf : ∀ b, C.decode b ≠ Except.ok none) (image : Bytes) (dpi : ℚ)
    (strip : Bool) :
    add_page C image dpi strip ≠ Except.error Cause.unexpectedImageInfo := by
  intro h
  unfold add_page at h
  cases hd : C.decode image with
  | error e => rw [hd] at h; simp at h
  | ok o =>
    cases o with
    | none => exact hconf image hd
    | some info =>
      rw [hd] at h
      cases hj : C.jpegFromBytes image with
      | error e => rw [hj] at h; simp at h
      | ok cont => rw [hj] at h; simp at h

/-- C9 witness: the concrete conforming decoder of `W`. -/
theorem c9_witness :
    add_page W [1] 300 false ≠ Except.error Cause.unexpectedImageInfo :=
  c9_unexpected_unreachable W
    (by intro b h; by_cases hb : b = [] <;> simp [W, hb] at h) [1] 300 false

/-- If a message's characters decompose around the pattern, the message
mentions the pattern. -/
theorem mentions_of_data (msg sub : String) (t u : List Char)
    (h : msg.data = t ++ (sub.data ++ u)) : mentions msg sub = true := by
  simp [mentions, h, occursAnywhere_append]

/-- C2: whenever `create_pdf` succeeds, the serialized document has exactly
one page per input image, the i-th page produced by `add_page` from the
i-th input in order, and each page's point dimensions are the image's
oriented display dimensions times 72 over the configured dpi. -/
theorem c2_page_composition (C : Collab Cont Exr Fld) (self : JpegToPdf)
    (out : Bytes) (h : JpegToPdf.create_pdf C self = Except.ok out) :
    ∃ doc, buildDoc C self = Except.ok doc ∧ C.pdfSave doc = Except.ok out ∧
      doc.pages.length = self.images.length ∧
      ∀ i img, self.images.get? i = some img →
        ∃ p, doc.pages.get? i = some p ∧
          add_page C img self.dpi self.strip_exif = Except.ok p ∧
          ∃ info cont, C.decode img = Except.ok (some info) ∧
            C.jpegFromBytes img = Except.ok cont ∧
            p.width = pxToPt (Orientation.display_width
              ⟨resolve_orientation C cont, info.width, info.height⟩) self.dpi ∧
            p.height = pxToPt (Orientation.display_height
              ⟨resolve_orientation C cont, info.width, info.height⟩) self.dpi := by
  unfold JpegToPdf.create_pdf at h
  split at h
  · simp at h
  · rename_i doc hb
    split at h
    · simp at h
    · rename_i bytes hs
      simp only [Except.ok.injEq] at h
      subst h
      have hpages : addPages C self.dpi self.strip_exif self.images 0
          = Except.ok doc.pages := by
        unfold buildDoc at hb
        split at hb
        · simp at hb
        · rename_i pages ha
          simp only [Except.ok.injEq] at hb
          rw [← hb]
          exact ha
      obtain ⟨hl, hspec⟩ :=
        addPages_ok C self.dpi self.strip_exif self.images 0 doc.pages hpages
      refine ⟨doc, hb, hs, hl, ?_⟩
      intro i img hi
      obtain ⟨p, hp1, hp2⟩ := hspec i img hi
      obtain ⟨info, cont, hd, hj, hwidth, hheight⟩ :=
        add_page_ok_inv C img self.dpi self.strip_exif p hp2
      exact ⟨p, hp1, hp2, info, cont, hd, hj, hwidth, hheight⟩

/-- C2 witness: a one-image run at the defaults. -/
theorem c2_witness :
    ∃ doc, buildDoc W cfg2 = Except.ok doc ∧ W.pdfSave doc = Except.ok [1] ∧
      doc.pages.length = cfg2.images.length ∧
      ∀ i img, cfg2.images.get? i = some img →
        ∃ p, doc.pages.get? i = some p ∧
          add_page W img cfg2.dpi cfg2.strip_exif = Except.ok p ∧
          ∃ info cont, W.decode img = Except.ok (some info) ∧
            W.jpegFromBytes img = Except.ok cont ∧
            p.width = pxToPt (Orientation.display_width
              ⟨resolve_orientation W cont, info.width, info.height⟩) cfg2.dpi ∧
            p.height = pxToPt (Orientation.display_height
              ⟨resolve_orientation W cont, info.width, info.height⟩) cfg2.dpi :=
  c2_page_composition W cfg2 [1] rfl

/-- C4: the build is fail-fast — if every image before position i composes
and the image at position i fails with some cause, `create_pdf` returns
exactly that cause wrapped with index i whatever images follow, and the
sink receives no bytes; and a failing final save yields `PdfWrite` at
index 0. -/
theorem c4_fail_fast (C : Collab Cont Exr Fld) (dpi : ℚ) (strip : Bool)
    (title : String) (d1 d2 : Nat) :
    (∀ (pre : List Bytes) (img : Bytes) (post : List Bytes) (c : Cause),
        (∀ b, b ∈ pre → ∃ p, add_page C b dpi strip = Except.ok p) →
        add_page C img dpi strip = Except.error c →
          JpegToPdf.create_pdf C ⟨pre ++ img :: post, dpi, strip, title, d1, d2⟩
              = Except.error ⟨pre.length, c⟩ ∧
            writtenBytes (JpegToPdf.create_pdf C
              ⟨pre ++ img :: post, dpi, strip, title, d1, d2⟩) = [])
  ∧ (∀ (images : List Bytes) (doc : PdfDocument) (e : String),
        buildDoc C ⟨images, dpi, strip, title, d1, d2⟩ = Except.ok doc →
        C.pdfSave doc = Except.error e →
          JpegToPdf.create_pdf C ⟨images, dpi, strip, title, d1, d2⟩
            = Except.error ⟨0, Cause.pdfWrite e⟩) := by
  constructor
  · intro pre img post c hpre hfail
    have hap := addPages_fail C dpi strip img post c hfail pre hpre 0
    have hcp : JpegToPdf.create_pdf C ⟨pre ++ img :: post, dpi, strip, title, d1, d2⟩
        = Except.error ⟨pre.length, c⟩ := by
      simp [JpegToPdf.create_pdf, buildDoc, hap]
    exact ⟨hcp, by rw [hcp]; rfl⟩
  · intro images doc e hbuild hsave
    simp [JpegToPdf.create_pdf, hbuild, hsave]

/-- C4 witness: the empty buffer at index 0 of a two-image batch. -/
theorem c4_witness :
    JpegToPdf.create_pdf W ⟨[[], [1]], 300, false, "", 0, 0⟩
      = Except.error ⟨0, Cause.imageInfo "empty"⟩ :=
  ((c4_fail_fast W 300 false "" 0 0).1 [] [] [[1]] (Cause.imageInfo "empty")
    (fun b hb => absurd hb (List.not_mem_nil b)) rfl).1

/-- C6 counterexample to the claim as stated: `create_pdf` can return an
error (a failing final save) whose rendered message does not name the
failing image's index at all — `Display for Error` prints a `PdfWrite`
cause bare. -/
theorem c6_counterexample :
    JpegToPdf.create_pdf W2 ⟨[], 300, false, "", 0, 0⟩
        = Except.error ⟨0, Cause.pdfWrite "disk full"⟩
  ∧ Error.display ⟨0, Cause.pdfWrite "disk full"⟩ = "failed to write PDF: disk full"
  ∧ mentions "failed to write PDF: disk full" (Nat.repr 0) = false :=
  ⟨rfl, rfl, rfl⟩

/-- C6 amended: every error whose cause is not `PdfWrite` renders with both
the failing image's index and the cause text; a `PdfWrite` error renders
only the cause text. -/
theorem c6_error_display (err : Error) (h : ∀ e, err.cause ≠ Cause.pdfWrite e) :
    mentions err.display (Nat.repr err.index) = true
  ∧ mentions err.display err.cause.display = true := by
  obtain ⟨idx, cause⟩ := err
  cases cause with
  | pdfWrite e => exact absurd rfl (h e)
  | imageInfo e =>
    refine ⟨mentions_of_data _ _ "error with JPEG index ".data
        ((": " ++ Cause.display (Cause.imageInfo e)).data) ?_,
      mentions_of_data _ _
        ("error with JPEG index " ++ Nat.repr idx ++ ": ").data [] ?_⟩
    · simp [Error.display, String.data_append, List.append_assoc]
    · simp [Error.display, String.data_append, List.append_assoc]
  | unexpectedImageInfo =>
    refine ⟨mentions_of_data _ _ "error with JPEG index ".data
        ((": " ++ Cause.display Cause.unexpectedImageInfo).data) ?_,
      mentions_of_data _ _
        ("error with JPEG index " ++ Nat.repr idx ++ ": ").data [] ?_⟩
    · simp [Error.display, String.data_append, List.append_assoc]
    · simp [Error.display, String.data_append, List.append_assoc]
  | imageSections e =>
    refine ⟨mentions_of_data _ _ "error with JPEG index ".data
        ((": " ++ Cause.display (Cause.imageSections e)).data) ?_,
      mentions_of_data _ _
        ("error with JPEG index " ++ Nat.repr idx ++ ": ").data [] ?_⟩
    · simp [Error.display, String.data_append, List.append_assoc]
    · simp [Error.display, String.data_append, List.append_assoc]

/-- C6 witness for the amended statement. -/
theorem c6_witness :
    mentions (Error.display ⟨3, Cause.imageInfo "bad"⟩) (Nat.repr 3) = true
  ∧ mentions (Error.display ⟨3, Cause.imageInfo "bad"⟩)
      (Cause.display (Cause.imageInfo "bad")) = true :=
  c6_error_display ⟨3, Cause.imageInfo "bad"⟩ (fun _ h => nomatch h)

/-- C7: the deprecated `create_pdf_from_jpegs` is exactly a
default-configured builder run — same result, and the configuration it
builds is the defaults (strip off, empty title, invocation-time
timestamps) with the given images and dpi. -/
theorem c7_deprecated_equiv (C : Collab Cont Exr Fld) (jpegs : List Bytes)
    (dpi : Option ℚ) (now_c now_m : Nat) :
    create_pdf_from_jpegs C jpegs dpi now_c now_m
      = JpegToPdf.create_pdf C
          (((JpegToPdf.new now_c now_m).add_images jpegs).set_dpi (dpi.getD 300))
  ∧ ((JpegToPdf.new now_c now_m).add_images jpegs).set_dpi (dpi.getD 300)
      = ⟨jpegs, dpi.getD 300, false, "", now_c, now_m⟩ := by
  refine ⟨rfl, ?_⟩
  simp [JpegToPdf.new, JpegToPdf.add_images, JpegToPdf.set_dpi]

/-- C8: the composed pages — embedded payloads, page dimensions, placement
offsets, rotation angles and mirror factors — depend only on the images,
dpi, strip flag and title, not on the timestamps; two runs differing only
in timestamps build identical page lists (and identical failures). -/
theorem c8_timestamp_independence (C : Collab Cont Exr Fld)
    (images : List Bytes) (dpi : ℚ) (strip : Bool) (title : String)
    (d1 d2 d1' d2' : Nat) :
    Except.map PdfDocument.pages (buildDoc C ⟨images, dpi, strip, title, d1, d2⟩)
      = Except.map PdfDocument.pages
          (buildDoc C ⟨images, dpi, strip, title, d1', d2'⟩) := by
  cases h : addPages C dpi strip images 0 <;>
    simp [buildDoc, h, Except.map]

/-- C10: the library itself accepts an empty image list — the loop succeeds
vacuously and a zero-page document is handed to the writer (and returned on
a successful save); only the CLI binary guards against empty input. -/
theorem c10_empty_input (C : Collab Cont Exr Fld) (dpi : ℚ) (strip : Bool)
    (title : String) (d1 d2 : Nat) :
    buildDoc C ⟨[], dpi, strip, title, d1, d2⟩ = Except.ok ⟨title, d1, d2, []⟩
  ∧ (∀ bytes, C.pdfSave ⟨title, d1, d2, []⟩ = Except.ok bytes →
      JpegToPdf.create_pdf C ⟨[], dpi, strip, title, d1, d2⟩ = Except.ok bytes)
  ∧ cliRejectsEmptyInput [] = true := by
  refine ⟨rfl, ?_, rfl⟩
  intro bytes hsave
  simp [JpegToPdf.create_pdf, buildDoc, addPages, hsave]

/-- C10 witness: an empty run with a succeeding writer produces a zero-page
document. -/
theorem c10_witness :
    JpegToPdf.create_pdf W ⟨[], 300, false, "", 0, 0⟩ = Except.ok [0] :=
  (c10_empty_input W 300 false "" 0 0).2.1 [0] rfl

end JpegToPdfModel

